import Mathlib

/-!
Verification of the Craby editor core (src/editor.rs) against its
natural-language specification.

The editor's session state uses Rust `u16` fields; we embed `u16` values as
natural numbers below 65536, with wrapping addition/subtraction made explicit
(`add16`, `sub16`, `w16`) at exactly the places the source performs `u16`
arithmetic or an `as u16` cast.  `saturating_sub` on `u16` coincides with
truncated subtraction on `Nat` and is embedded as plain `Nat` subtraction.

The text-storage collaborator (`buffer.rs`) is not part of the sources; it is
modelled from the spec's interface contract (§6) at the end of the
definitions section.
-/

namespace Craby

/-- The u16 truncation: the value of `n as u16`. -/
def w16 (n : Nat) : Nat := n % 65536

/-- Wrapping `u16` addition (release-mode semantics of `a + b` on `u16`). -/
def add16 (a b : Nat) : Nat := (a + b) % 65536

/-- Wrapping `u16` subtraction (release-mode semantics of `a - b` on `u16`). -/
def sub16 (a b : Nat) : Nat := (a % 65536 + 65536 - b % 65536) % 65536

/-- Rust `enum Mode` from src/editor.rs. -/
inductive Mode where
  | Normal
  | Insert
deriving DecidableEq

/-- Rust `enum Action` from src/editor.rs (constructor order as in the source). -/
inductive Action where
  | Quit
  | MoveUp
  | MoveDown
  | MoveLeft
  | MoveRight
  | PageDown
  | AddChar (c : Char)
  | NewLine
  | EnterMode (m : Mode)
  | PageUp
  | MoveToLineEnd
  | MoveToLineStart
deriving DecidableEq

/-- Key codes of the input events the editor matches on (crossterm
`KeyCode`): the constructors named in src/editor.rs plus representative
unmatched ones. -/
inductive KeyCode where
  | Char (c : Char)
  | Left
  | Right
  | Up
  | Down
  | Esc
  | Enter
  | Backspace
  | Tab
  | Home
  | EndKey
  | Delete
  | F (n : Nat)
deriving DecidableEq

/-- Key modifiers (crossterm `KeyModifiers`) as explicit flag bits. -/
structure KeyModifiers where
  shift : Bool
  control : Bool
  alt : Bool
deriving DecidableEq

/-- The modifier value `KeyModifiers::CONTROL` (exactly the control bit). -/
def KeyModifiers.controlOnly : KeyModifiers := ⟨false, true, false⟩

/-- No modifiers (`KeyModifiers::NONE`). -/
def KeyModifiers.noneMods : KeyModifiers := ⟨false, false, false⟩

/-- crossterm `KeyEventKind`. -/
inductive KeyEventKind where
  | Press
  | Release
  | Repeat
deriving DecidableEq

/-- crossterm `KeyEvent` (the fields src/editor.rs destructures). -/
structure KeyEvent where
  code : KeyCode
  kind : KeyEventKind
  modifiers : KeyModifiers
deriving DecidableEq

/-- crossterm `Event`: the `Key` variant the editor matches, plus the other
event kinds (all of which fall into the handlers' catch-all arms). -/
inductive Event where
  | Key (ke : KeyEvent)
  | Resize (w h : Nat)
  | FocusGained
  | FocusLost
  | Paste (s : String)
  | Mouse
deriving DecidableEq

/-- Modelled from the spec: the text-storage collaborator (`buffer.rs`, not
under src/).  Per §6 it exposes `get_line` (none past end-of-buffer) and
`line_count`; a buffer is therefore embedded as its list of lines, with
`get_line` = `List.get?` and `line_count` = `List.length`. -/
abbrev Buffer := List String

/-- Modelled from the spec: collaborator `insert(column, line, char)` —
"inserts one character at that position" (§6); out-of-range positions are
the collaborator's concern, embedded here as clamping the column and
ignoring an out-of-range line. -/
def strInsert (s : String) (col : Nat) (c : Char) : String :=
  String.mk (s.toList.take col ++ c :: s.toList.drop col)

/-- Modelled from the spec: `Buffer::insert` on the whole buffer — replace
line `line` by the line with `c` inserted at `col` (§6). -/
def bufInsert (buf : Buffer) (col line : Nat) (c : Char) : Buffer :=
  buf.set line (strInsert ((buf.get? line).getD "") col c)

/-- Rust `struct Editor` from src/editor.rs (the `stdout` handle carries no
state relevant to the session logic and is omitted).  `size` is
`(width, height)`. -/
@[ext]
structure Editor where
  buffer : Buffer
  size : Nat × Nat
  vtop : Nat
  vleft : Nat
  cx : Nat
  cy : Nat
  mode : Mode
deriving DecidableEq

/-- Rust `Editor::new`: cursor at (0,0), offsets 0, mode Normal. -/
def Editor.new (buf : Buffer) (sz : Nat × Nat) : Editor :=
  { buffer := buf, size := sz, vtop := 0, vleft := 0, cx := 0, cy := 0,
    mode := Mode.Normal }

/-- Rust `Editor::vwidth`: `self.size.0`. -/
def vwidth (e : Editor) : Nat := e.size.1

/-- Rust `Editor::vheight`: `self.size.1 - 2` (u16 subtraction). -/
def vheight (e : Editor) : Nat := sub16 e.size.2 2

/-- Rust `Editor::viewport_line`: `self.buffer.get((self.vtop + n) as usize)`
(the sum is computed in `u16`). -/
def viewport_line (e : Editor) (n : Nat) : Option String :=
  e.buffer.get? (add16 e.vtop n)

/-- Rust `Editor::line_length`: length of the line under the cursor, `as u16`,
or 0 when the cursor addresses past end-of-buffer. -/
def line_length (e : Editor) : Nat :=
  match viewport_line e e.cy with
  | some line => w16 line.length
  | none => 0

/-- Rust `Editor::buffer_line`: `self.vtop + self.cy` (u16 addition). -/
def buffer_line (e : Editor) : Nat := add16 e.vtop e.cy

/-- Rust `Editor::check_bounds`, translated statement by statement. -/
def check_bounds (e : Editor) : Editor :=
  let l := line_length e
  let e1 := if e.cx ≥ l then
              if l > 0 then { e with cx := sub16 (line_length e) 1 }
              else { e with cx := 0 }
            else e
  let e2 := if e1.cx ≥ vwidth e1 then { e1 with cx := sub16 (vwidth e1) 1 }
            else e1
  let line_on_buffer := add16 e2.cy e2.vtop
  if line_on_buffer ≥ e2.buffer.length then
    { e2 with cy := sub16 (sub16 (w16 e2.buffer.length) e2.vtop) 1 }
  else e2

/-- The action-application `match` inside `Editor::run`.  `Quit` breaks the
loop and is embedded as the identity on the state. -/
def applyAction (e : Editor) (a : Action) : Editor :=
  match a with
  | Action.Quit => e
  | Action.MoveUp =>
      if e.cy = 0 then
        if e.vtop > 0 then { e with vtop := e.vtop - 1 } else e
      else { e with cy := e.cy - 1 }
  | Action.MoveDown =>
      let cy1 := add16 e.cy 1
      if cy1 ≥ vheight e then
        { e with vtop := add16 e.vtop 1, cy := sub16 (vheight e) 1 }
      else { e with cy := cy1 }
  | Action.MoveLeft =>
      let cx1 := e.cx - 1
      if cx1 < e.vleft then { e with cx := e.vleft } else { e with cx := cx1 }
  | Action.MoveRight => { e with cx := add16 e.cx 1 }
  | Action.PageUp => { e with vtop := e.vtop - vheight e }
  | Action.PageDown =>
      if e.buffer.length > add16 e.vtop (vheight e) then
        { e with vtop := add16 e.vtop (vheight e) }
      else { e with vtop := sub16 (w16 e.buffer.length) 1 }
  | Action.MoveToLineEnd => { e with cx := line_length e - 1 }
  | Action.MoveToLineStart => { e with cx := 0 }
  | Action.EnterMode m => { e with mode := m }
  | Action.AddChar c =>
      { e with buffer := bufInsert e.buffer e.cx (buffer_line e) c,
               cx := add16 e.cx 1 }
  | Action.NewLine => { e with cx := 0, cy := add16 e.cy 1 }

/-- Rust `Editor::handle_normal_event`: the Normal-mode classification `match`,
arms in source order (`anyhow::Result` embedded as `Except String`; the
source only ever constructs `Ok`). -/
def handle_normal_event (ev : Event) : Except String (Option Action) :=
  match ev with
  | Event.Key { code := code, kind := KeyEventKind.Press, modifiers := mods } =>
    match code with
    | KeyCode.Char c =>
        if c = 'q' then Except.ok (some Action.Quit)
        else if c = '$' then Except.ok (some Action.MoveToLineEnd)
        else if c = '0' then Except.ok (some Action.MoveToLineStart)
        else if c = 'h' then Except.ok (some Action.MoveLeft)
        else if c = 'l' then Except.ok (some Action.MoveRight)
        else if c = 'k' then Except.ok (some Action.MoveUp)
        else if c = 'j' then Except.ok (some Action.MoveDown)
        else if c = 'i' then Except.ok (some (Action.EnterMode Mode.Insert))
        else if c = 'f' ∧ mods = KeyModifiers.controlOnly then
          Except.ok (some Action.PageDown)
        else if c = 'b' ∧ mods = KeyModifiers.controlOnly then
          Except.ok (some Action.PageUp)
        else Except.ok none
    | KeyCode.Left => Except.ok (some Action.MoveLeft)
    | KeyCode.Right => Except.ok (some Action.MoveRight)
    | KeyCode.Up => Except.ok (some Action.MoveUp)
    | KeyCode.Down => Except.ok (some Action.MoveDown)
    | _ => Except.ok none
  | _ => Except.ok none

/-- Rust `Editor::handle_insert_event`. -/
def handle_insert_event (ev : Event) : Except String (Option Action) :=
  match ev with
  | Event.Key { code := code, kind := KeyEventKind.Press, modifiers := _ } =>
    match code with
    | KeyCode.Esc => Except.ok (some (Action.EnterMode Mode.Normal))
    | KeyCode.Char c => Except.ok (some (Action.AddChar c))
    | _ => Except.ok none
  | _ => Except.ok none

/-- Rust `Editor::handle_event`: dispatch on the current mode. -/
def handle_event (e : Editor) (ev : Event) : Except String (Option Action) :=
  match e.mode with
  | Mode.Normal => handle_normal_event ev
  | Mode.Insert => handle_insert_event ev

/-- The effect of one classified event on the state (the
`if let Some(action) = self.handle_event(...)` body of `Editor::run`). -/
def processEvent (e : Editor) (ev : Event) : Editor :=
  match handle_event e ev with
  | Except.ok (some a) => applyAction e a
  | _ => e

/-- One iteration of the `Editor::run` loop as a state transformer:
`check_bounds`, then (draw, which does not change the session state), then
read one event and apply its classified action. -/
def loop_step (e : Editor) (ev : Event) : Editor :=
  processEvent (check_bounds e) ev

/-- The session states reachable by the `Editor::run` loop from a fresh
`Editor::new buf sz`. -/
inductive Reachable (buf : Buffer) (sz : Nat × Nat) : Editor → Prop where
  | init : Reachable buf sz (Editor.new buf sz)
  | step (e : Editor) (ev : Event) : Reachable buf sz e →
      Reachable buf sz (loop_step e ev)

/-- The `u16` subtraction `self.buffer.len() as u16 - self.vtop - 1` in
`check_bounds` is executed (its branch is taken) and underflows. -/
def cy_clamp_underflows (e : Editor) : Prop :=
  add16 e.cy e.vtop ≥ e.buffer.length ∧ w16 e.buffer.length < e.vtop + 1

/-- Some `u16` subtraction in `check_bounds` is executed and underflows:
either `vwidth - 1` (iff the width is 0, since the guard `cx >= vwidth` then
always holds), or the `cy` clamp's `len - vtop - 1`.  The line-clamp
subtraction `line_length - 1` is guarded by `l > 0` and never underflows. -/
def check_bounds_underflows (e : Editor) : Prop :=
  vwidth e = 0 ∨ cy_clamp_underflows e

/-- The `u16` subtraction `self.buffer.len() as u16 - 1` in the `PageDown`
arm is executed (the else branch is taken) and underflows. -/
def pageDown_underflows (e : Editor) : Prop :=
  ¬ (e.buffer.length > add16 e.vtop (vheight e)) ∧ w16 e.buffer.length = 0

/-- All `u16` fields of a session state are in range (inherent to the Rust
representation; stated explicitly since the embedding uses `Nat`). -/
def WF (e : Editor) : Prop :=
  e.cx < 65536 ∧ e.cy < 65536 ∧ e.vtop < 65536 ∧ e.vleft < 65536 ∧
    e.size.1 < 65536 ∧ e.size.2 < 65536

instance (e : Editor) : Decidable (WF e) := by
  unfold WF; infer_instance

instance (e : Editor) : Decidable (cy_clamp_underflows e) := by
  unfold cy_clamp_underflows; infer_instance

instance (e : Editor) : Decidable (check_bounds_underflows e) := by
  unfold check_bounds_underflows vwidth; infer_instance

instance (e : Editor) : Decidable (pageDown_underflows e) := by
  unfold pageDown_underflows; infer_instance

/-- One row of a classification table: a match predicate on (key code,
modifiers) and the produced action. -/
abbrev TableRow := (KeyCode → KeyModifiers → Bool) × Action

/-- First-match-wins lookup over table rows, as the spec words it (§4.2). -/
def first_match : List TableRow → KeyCode → KeyModifiers → Option Action
  | [], _, _ => none
  | (p, a) :: rest, code, mods =>
      if p code mods then some a else first_match rest code mods

/-- The Normal-mode table rows, spelled exactly as the spec lays the table
out (§4.2): literal characters are case-sensitive, arrow keys share rows
with h/l/k/j, and the f/b rows require the control modifier. -/
def normal_rows : List TableRow :=
  [ (fun code _ => code == KeyCode.Char 'q', Action.Quit),
    (fun code _ => code == KeyCode.Char '$', Action.MoveToLineEnd),
    (fun code _ => code == KeyCode.Char '0', Action.MoveToLineStart),
    (fun code _ => code == KeyCode.Char 'h' || code == KeyCode.Left,
      Action.MoveLeft),
    (fun code _ => code == KeyCode.Char 'l' || code == KeyCode.Right,
      Action.MoveRight),
    (fun code _ => code == KeyCode.Char 'k' || code == KeyCode.Up,
      Action.MoveUp),
    (fun code _ => code == KeyCode.Char 'j' || code == KeyCode.Down,
      Action.MoveDown),
    (fun code _ => code == KeyCode.Char 'i', Action.EnterMode Mode.Insert),
    (fun code mods => code == KeyCode.Char 'f' &&
      mods == KeyModifiers.controlOnly, Action.PageDown),
    (fun code mods => code == KeyCode.Char 'b' &&
      mods == KeyModifiers.controlOnly, Action.PageUp) ]

/-- The Normal-mode classification table of the spec (§4.2), first match
wins, anything else none. -/
def normal_table_spec (code : KeyCode) (mods : KeyModifiers) : Option Action :=
  first_match normal_rows code mods

/-- Modelled from the spec: a "printable character" (Insert-mode table,
§4.2) — not an ASCII control character and not DEL. -/
def is_printable (c : Char) : Bool := 32 ≤ c.toNat && c.toNat ≠ 127

/-- The Insert-mode classification table exactly as the spec words it
(§4.2): Escape to EnterMode(Normal), any printable character `c` to
AddChar(c), anything else none. -/
def insert_table_spec (code : KeyCode) (_mods : KeyModifiers) : Option Action :=
  match code with
  | KeyCode.Esc => some (Action.EnterMode Mode.Normal)
  | KeyCode.Char c => if is_printable c then some (Action.AddChar c) else none
  | _ => none

/-- Whether an event is a key press (the only events the spec says are
classified, §4.2). -/
def is_key_press : Event → Bool
  | Event.Key { code := _, kind := KeyEventKind.Press, modifiers := _ } => true
  | _ => false

/-- Classification as claim C6 states it: the spec's per-mode tables on key
presses, no action on everything else. -/
def classify_spec (m : Mode) (ev : Event) : Option Action :=
  match ev with
  | Event.Key { code := code, kind := KeyEventKind.Press, modifiers := mods } =>
      match m with
      | Mode.Normal => normal_table_spec code mods
      | Mode.Insert => insert_table_spec code mods
  | _ => none

/-- Classification per the amended claim C6: as `classify_spec`, except that
the Insert-mode character row covers every character, printable or not. -/
def classify_amended (m : Mode) (ev : Event) : Option Action :=
  match ev with
  | Event.Key { code := code, kind := KeyEventKind.Press, modifiers := mods } =>
      match m with
      | Mode.Normal => normal_table_spec code mods
      | Mode.Insert =>
          match code with
          | KeyCode.Esc => some (Action.EnterMode Mode.Normal)
          | KeyCode.Char c => some (Action.AddChar c)
          | _ => none
  | _ => none

/-- The PageDown rule exactly as claim C5 states it: advance `vtop` by the
viewport height when the buffer has more lines beyond the new viewport (the
viewport after advancing), otherwise pin `vtop` to `buffer_length - 1`. -/
def pageDown_spec (e : Editor) : Editor :=
  if e.buffer.length > e.vtop + vheight e + vheight e then
    { e with vtop := e.vtop + vheight e }
  else { e with vtop := e.buffer.length - 1 }

/-- Scenario state of claim C4: terminal height 10 (viewport height 8), a
20-line buffer, cursor on the last viewport row. -/
def scenario_c4 : Editor :=
  { buffer := List.replicate 20 "line", size := (80, 10), vtop := 0,
    vleft := 0, cx := 0, cy := 7, mode := Mode.Normal }

/-- Scenario state of claim C5's counterexample: 10-line buffer, viewport
height 8, `vtop = 0`. -/
def scenario_c5 : Editor :=
  { buffer := List.replicate 10 "line", size := (80, 10), vtop := 0,
    vleft := 0, cx := 0, cy := 0, mode := Mode.Normal }

/-- Scenario start state of claim C8: Normal mode, cursor at column 1 of a
one-line buffer. -/
def scenario_c8 : Editor :=
  { buffer := ["hello"], size := (80, 10), vtop := 0, vleft := 0, cx := 1,
    cy := 0, mode := Mode.Normal }

/-- Key-press event helper for scenarios (no modifiers). -/
def press (code : KeyCode) : Event :=
  Event.Key { code := code, kind := KeyEventKind.Press,
              modifiers := KeyModifiers.noneMods }

/-- Scenario end state of claim C9: buffer `["ab","","xyz"]`, cursor (0,0),
MoveDown twice then MoveToLineEnd. -/
def scenario_c9 : Editor :=
  applyAction (applyAction (applyAction (Editor.new ["ab", "", "xyz"] (80, 10))
    Action.MoveDown) Action.MoveDown) Action.MoveToLineEnd

/-- Counterexample state of claim C1: terminal height 3 (hence viewport
height 1), a 4-line buffer, cursor row 2 — `check_bounds` leaves `cy` at 2
because `vtop + cy` still addresses an in-buffer line. -/
def scenario_c1 : Editor :=
  { buffer := ["a", "b", "c", "d"], size := (80, 3), vtop := 0, vleft := 0,
    cx := 0, cy := 2, mode := Mode.Normal }

/-- An Insert-mode editor for the C6 counterexample. -/
def scenario_c6 : Editor :=
  { buffer := ["hello"], size := (80, 10), vtop := 0, vleft := 0, cx := 0,
    cy := 0, mode := Mode.Insert }

/-- The BEL control character (ASCII 7): a character key-press that is not
printable under any reading of the spec's Insert-mode table. -/
def belChar : Char := Char.ofNat 7

/-- Scenario intermediate state of claim C8: after pressing `i`. -/
def scenario_c8_after_i : Editor := loop_step scenario_c8 (press (KeyCode.Char 'i'))

/-- Scenario intermediate state of claim C8: after then pressing `a`. -/
def scenario_c8_after_a : Editor :=
  loop_step scenario_c8_after_i (press (KeyCode.Char 'a'))

/-- Scenario final state of claim C8: after then pressing Escape. -/
def scenario_c8_final : Editor := loop_step scenario_c8_after_a (press KeyCode.Esc)

/-- Counterexample state of claims C2 and C10: a session started on an
empty buffer. -/
def scenario_c2 : Editor := Editor.new [] (80, 10)

/-- The first clamp of `check_bounds` (cursor column against the current
line length), as a function of the column and the length. -/
def clamp_line (cx l : Nat) : Nat :=
  if cx ≥ l then (if l > 0 then sub16 l 1 else 0) else cx

/-- The second clamp of `check_bounds` (cursor column against the viewport
width). -/
def clamp_width (cx w : Nat) : Nat := if cx ≥ w then sub16 w 1 else cx

/-- The `cy` update of `check_bounds`. -/
def cy_clamped (e : Editor) : Nat :=
  if add16 e.cy e.vtop ≥ e.buffer.length then
    sub16 (sub16 (w16 e.buffer.length) e.vtop) 1
  else e.cy

/-- Length (as u16) of the buffer line addressed by screen row `row`, i.e.
`line_length` generalized over the row. -/
def row_length (e : Editor) (row : Nat) : Nat :=
  match e.buffer.get? (add16 e.vtop row) with
  | some line => w16 line.length
  | none => 0

/-- Stage one of `check_bounds`: the cursor-column clamp against the
current line's length. -/
def clampL (e : Editor) : Editor :=
  if e.cx ≥ line_length e then
    if line_length e > 0 then { e with cx := sub16 (line_length e) 1 }
    else { e with cx := 0 }
  else e

/-- Stage two of `check_bounds`: the cursor-column clamp against the
viewport width. -/
def clampW (e : Editor) : Editor :=
  if e.cx ≥ vwidth e then { e with cx := sub16 (vwidth e) 1 } else e

/-- Stage three of `check_bounds`: the cursor-row clamp against the last
buffer line. -/
def clampCy (e : Editor) : Editor :=
  if add16 e.cy e.vtop ≥ e.buffer.length then
    { e with cy := sub16 (sub16 (w16 e.buffer.length) e.vtop) 1 }
  else e

/-- The inductive invariant of the session loop: constant buffer length and
terminal size, scroll offset strictly inside the buffer, cursor row inside
the viewport (whose height is `sz.2 - 2`). -/
def SessionInv (len : Nat) (sz : Nat × Nat) (e : Editor) : Prop :=
  e.buffer.length = len ∧ e.size = sz ∧ e.vtop < len ∧ e.cy < sz.2 - 2

/-- Side conditions on a session's fixed parameters under which the loop
invariant is inductive: non-empty buffer, viewport height at least 2, and
no u16 wrap-around in the cursor/scroll arithmetic. -/
def SizeOK (len : Nat) (sz : Nat × Nat) : Prop :=
  1 ≤ len ∧ 4 ≤ sz.2 ∧ len + sz.2 < 65536

/- ------------------------------------------------------------------ -/
/- Helper lemmas                                                       -/
/- ------------------------------------------------------------------ -/

theorem add16_eq {a b : Nat} (h : a + b < 65536) : add16 a b = a + b :=
  Nat.mod_eq_of_lt h

theorem sub16_eq {a b : Nat} (hb : b ≤ a) (ha : a < 65536) :
    sub16 a b = a - b := by
  unfold sub16; omega

theorem sub16_lt (a b : Nat) : sub16 a b < 65536 :=
  Nat.mod_lt _ (by omega)

theorem add16_lt (a b : Nat) : add16 a b < 65536 :=
  Nat.mod_lt _ (by omega)

theorem w16_lt (a : Nat) : w16 a < 65536 :=
  Nat.mod_lt _ (by omega)

theorem vheight_lt (e : Editor) : vheight e < 65536 :=
  sub16_lt _ _

theorem vheight_eq (e : Editor) (h2 : 2 ≤ e.size.2) (h : e.size.2 < 65536) :
    vheight e = e.size.2 - 2 :=
  sub16_eq h2 h

/-- Helper: the Normal-mode handler agrees with the spec's first-match
table on every key press. -/
theorem handle_normal_eq_table (code : KeyCode) (mods : KeyModifiers) :
    handle_normal_event (Event.Key ⟨code, KeyEventKind.Press, mods⟩) =
      Except.ok (normal_table_spec code mods) := by
  cases code <;>
    simp [handle_normal_event, normal_table_spec, first_match, normal_rows,
      apply_ite Except.ok]

/-- Helper: classification in either mode always succeeds and agrees with
the amended tables (Insert-mode character row over all characters). -/
theorem handle_event_eq_amended (e : Editor) (ev : Event) :
    handle_event e ev = Except.ok (classify_amended e.mode ev) := by
  cases hm : e.mode <;> cases ev <;>
    simp [handle_event, hm, classify_amended, handle_normal_event,
      handle_insert_event]
  case Normal.Key ke =>
    cases ke with
    | mk code kind mods =>
      cases kind <;>
        simp [handle_normal_event, normal_table_spec, first_match, normal_rows]
      cases code <;>
        simp [handle_normal_event, normal_table_spec, first_match,
          normal_rows, apply_ite Except.ok]
  case Insert.Key ke =>
    cases ke with
    | mk code kind mods =>
      cases kind <;> cases code <;> simp [handle_insert_event]

/-- Helper: the amended classification yields no action on anything that is
not a key press. -/
theorem classify_amended_none_of_not_press (m : Mode) (ev : Event)
    (h : is_key_press ev = false) : classify_amended m ev = none := by
  cases ev with
  | Key ke =>
      cases ke with
      | mk code kind mods =>
          cases kind <;> simp_all [is_key_press, classify_amended]
  | _ => rfl

/- ------------------------------------------------------------------ -/
/- Claim theorems                                                      -/
/- ------------------------------------------------------------------ -/

/-- C7: In Normal mode, classification of a key press maps exactly per the
spec's table (first match wins, case-sensitive literal characters, arrow
keys sharing rows with h/l/k/j, f/b requiring the control modifier), and
anything else to no action — and it never errors. -/
theorem c7_normal_mode_table (code : KeyCode) (mods : KeyModifiers) :
    handle_normal_event (Event.Key ⟨code, KeyEventKind.Press, mods⟩) =
      Except.ok (normal_table_spec code mods) :=
  handle_normal_eq_table code mods

/-- C6 (counterexample): in Insert mode the key press carrying the
non-printable character BEL is unmapped in the spec's classification table,
yet the code classifies it to `AddChar` — an action, not `None`. -/
theorem c6_counterexample :
    classify_spec Mode.Insert (press (KeyCode.Char belChar)) = none ∧
    handle_event scenario_c6 (press (KeyCode.Char belChar)) =
      Except.ok (some (Action.AddChar belChar)) ∧
    some (Action.AddChar belChar) ≠ (none : Option Action) :=
  ⟨by decide, rfl, by decide⟩

/-- C6 (amended): classification never errors and never falls outside the
tables: in both modes it agrees with the spec's tables amended so that the
Insert-mode character row covers every character (printable or not), and
every event that is not a key press — in particular every non-key event
kind and key release/repeat — yields no action. -/
theorem c6_classification_total (e : Editor) (ev : Event) :
    handle_event e ev = Except.ok (classify_amended e.mode ev) ∧
    (is_key_press ev = false → classify_amended e.mode ev = none) :=
  ⟨handle_event_eq_amended e ev, classify_amended_none_of_not_press e.mode ev⟩

/-- C6 (witness): at a non-key-press event the handler returns no action. -/
theorem c6_classification_total_witness :
    handle_event scenario_c6 Event.FocusGained =
      Except.ok (classify_amended Mode.Insert Event.FocusGained) ∧
    classify_amended Mode.Insert Event.FocusGained = none := by
  have h := c6_classification_total scenario_c6 Event.FocusGained
  exact ⟨h.1, h.2 rfl⟩

/-- C9: on the buffer `["ab","","xyz"]` with the cursor at (0,0), MoveDown
twice then MoveToLineEnd puts the cursor at column 2, row 2; and
MoveToLineEnd always sets `cx` to `line_length - 1` saturated at 0
(truncated subtraction). -/
theorem c9_moveToLineEnd_scenario :
    scenario_c9.cx = 2 ∧ scenario_c9.cy = 2 ∧
    ∀ e : Editor, (applyAction e Action.MoveToLineEnd).cx = line_length e - 1 :=
  ⟨by decide, by decide, fun _ => rfl⟩

/-- C4: MoveDown increments `cy`; if `cy` then reaches or exceeds the
viewport height it instead scrolls (`vtop + 1`) and clamps `cy` to
`viewport_height - 1`; in the spec's scenario (terminal height 10, 20-line
buffer, cursor at row 7) it leaves `cy` at 7 and increments `vtop` to 1. -/
theorem c4_moveDown (e : Editor) (h1 : e.cy + 1 < 65536) (h2 : e.vtop + 1 < 65536)
    (h3 : 1 ≤ vheight e) :
    ((applyAction e Action.MoveDown).cy =
        if vheight e ≤ e.cy + 1 then vheight e - 1 else e.cy + 1) ∧
    ((applyAction e Action.MoveDown).vtop =
        if vheight e ≤ e.cy + 1 then e.vtop + 1 else e.vtop) ∧
    vheight scenario_c4 = 8 ∧ (applyAction scenario_c4 Action.MoveDown).cy = 7 ∧
    (applyAction scenario_c4 Action.MoveDown).vtop = 1 := by
  refine ⟨?_, ?_, by decide, by decide, by decide⟩ <;>
  · simp only [applyAction]
    rw [add16_eq h1]
    split_ifs <;> simp [sub16_eq h3 (vheight_lt e), add16_eq h2]

/-- C4 (witness): the scenario instance. -/
theorem c4_moveDown_witness :
    (applyAction scenario_c4 Action.MoveDown).cy = 7 ∧
    (applyAction scenario_c4 Action.MoveDown).vtop = 1 := by
  have h := c4_moveDown scenario_c4 (by decide) (by decide) (by decide)
  exact ⟨h.2.2.2.1, h.2.2.2.2⟩

/-- C5 (counterexample): with a 10-line buffer, `vtop = 0` and viewport
height 8, the buffer has no lines beyond the advanced viewport (10 ≤ 16),
so the claim as stated pins `vtop` to 9; the code instead advances `vtop`
to 8 because it only tests for lines beyond the current viewport. -/
theorem c5_counterexample :
    (applyAction scenario_c5 Action.PageDown).vtop = 8 ∧
    (pageDown_spec scenario_c5).vtop = 9 ∧
    applyAction scenario_c5 Action.PageDown ≠ pageDown_spec scenario_c5 := by
  refine ⟨by decide, by decide, ?_⟩
  intro h
  have : (applyAction scenario_c5 Action.PageDown).vtop =
      (pageDown_spec scenario_c5).vtop := by rw [h]
  revert this
  decide

/-- C5 (amended): PageDown advances `vtop` by the viewport height when the
buffer has more lines than `vtop + viewport_height` (that is, lines at or
beyond the start of the advanced viewport), and otherwise pins `vtop` to
`buffer_length - 1`. -/
theorem c5_pageDown (e : Editor) (h1 : e.vtop + vheight e < 65536)
    (h2 : 1 ≤ e.buffer.length) (h3 : e.buffer.length < 65536) :
    (applyAction e Action.PageDown).vtop =
      if e.buffer.length > e.vtop + vheight e then e.vtop + vheight e
      else e.buffer.length - 1 := by
  simp only [applyAction]
  rw [add16_eq h1]
  split_ifs <;>
    simp [add16_eq h1, w16, Nat.mod_eq_of_lt h3, sub16_eq h2 h3, sub16, w16]
  omega

/-- C5 (witness): the 10-line instance of the amended rule. -/
theorem c5_pageDown_witness : (applyAction scenario_c5 Action.PageDown).vtop = 8 := by
  have h := c5_pageDown scenario_c5 (by decide) (by decide) (by decide)
  rw [h]; decide

/-- C8: AddChar(c) inserts `c` into the buffer collaborator at the absolute
line `vtop + cy` and column `cx` of the current state and then increments
`cx` by one; and the spec's scenario — press `i` in Normal mode, then `a`,
then Escape — transitions Insert, inserts 'a' at the prior cursor column
advancing `cx`, and returns to Normal. -/
theorem c8_addChar (e : Editor) (c : Char) (h1 : e.cx + 1 < 65536)
    (h2 : e.vtop + e.cy < 65536) :
    (applyAction e (Action.AddChar c)).buffer =
      bufInsert e.buffer e.cx (e.vtop + e.cy) c ∧
    (applyAction e (Action.AddChar c)).cx = e.cx + 1 ∧
    scenario_c8_after_i.mode = Mode.Insert ∧
    scenario_c8_after_a.buffer = bufInsert scenario_c8.buffer scenario_c8.cx 0 'a' ∧
    scenario_c8_after_a.buffer = ["haello"] ∧
    scenario_c8_after_a.cx = scenario_c8.cx + 1 ∧
    scenario_c8_final.mode = Mode.Normal := by
  refine ⟨?_, ?_, by decide, by decide, by decide, by decide, by decide⟩
  · simp [applyAction, buffer_line, add16_eq h2]
  · simp [applyAction, add16_eq h1]

/-- C8 (witness): the scenario instance of the general statement. -/
theorem c8_addChar_witness :
    (applyAction scenario_c8 (Action.AddChar 'a')).buffer =
      bufInsert scenario_c8.buffer scenario_c8.cx
        (scenario_c8.vtop + scenario_c8.cy) 'a' ∧
    (applyAction scenario_c8 (Action.AddChar 'a')).cx = scenario_c8.cx + 1 := by
  have h := c8_addChar scenario_c8 'a' (by decide) (by decide)
  exact ⟨h.1, h.2.1⟩

theorem line_length_lt (e : Editor) : line_length e < 65536 := by
  unfold line_length
  split
  · exact w16_lt _
  · decide

theorem row_length_lt (e : Editor) (row : Nat) : row_length e row < 65536 := by
  unfold row_length
  split
  · exact w16_lt _
  · decide

/-- Helper: `check_bounds` is the three-stage pipeline of its clamps. -/
theorem check_bounds_pipeline (e : Editor) :
    check_bounds e = clampCy (clampW (clampL e)) := rfl

theorem clampL_cy (e : Editor) : (clampL e).cy = e.cy := by
  unfold clampL; split_ifs <;> rfl

theorem clampL_vtop (e : Editor) : (clampL e).vtop = e.vtop := by
  unfold clampL; split_ifs <;> rfl

theorem clampL_buffer (e : Editor) : (clampL e).buffer = e.buffer := by
  unfold clampL; split_ifs <;> rfl

theorem clampL_size (e : Editor) : (clampL e).size = e.size := by
  unfold clampL; split_ifs <;> rfl

theorem clampL_vleft (e : Editor) : (clampL e).vleft = e.vleft := by
  unfold clampL; split_ifs <;> rfl

theorem clampL_mode (e : Editor) : (clampL e).mode = e.mode := by
  unfold clampL; split_ifs <;> rfl

theorem clampL_cx (e : Editor) : (clampL e).cx = clamp_line e.cx (line_length e) := by
  unfold clampL clamp_line; split_ifs <;> rfl

theorem clampW_cx (e : Editor) : (clampW e).cx = clamp_width e.cx (vwidth e) := by
  unfold clampW clamp_width; split_ifs <;> rfl

theorem clampW_cy (e : Editor) : (clampW e).cy = e.cy := by
  unfold clampW; split_ifs <;> rfl

theorem clampW_vtop (e : Editor) : (clampW e).vtop = e.vtop := by
  unfold clampW; split_ifs <;> rfl

theorem clampW_buffer (e : Editor) : (clampW e).buffer = e.buffer := by
  unfold clampW; split_ifs <;> rfl

theorem clampW_size (e : Editor) : (clampW e).size = e.size := by
  unfold clampW; split_ifs <;> rfl

theorem clampW_vleft (e : Editor) : (clampW e).vleft = e.vleft := by
  unfold clampW; split_ifs <;> rfl

theorem clampW_mode (e : Editor) : (clampW e).mode = e.mode := by
  unfold clampW; split_ifs <;> rfl

theorem clampCy_cy (e : Editor) : (clampCy e).cy = cy_clamped e := by
  unfold clampCy cy_clamped; split_ifs <;> rfl

theorem clampCy_cx (e : Editor) : (clampCy e).cx = e.cx := by
  unfold clampCy; split_ifs <;> rfl

theorem clampCy_vtop (e : Editor) : (clampCy e).vtop = e.vtop := by
  unfold clampCy; split_ifs <;> rfl

theorem clampCy_buffer (e : Editor) : (clampCy e).buffer = e.buffer := by
  unfold clampCy; split_ifs <;> rfl

theorem clampCy_size (e : Editor) : (clampCy e).size = e.size := by
  unfold clampCy; split_ifs <;> rfl

theorem clampCy_vleft (e : Editor) : (clampCy e).vleft = e.vleft := by
  unfold clampCy; split_ifs <;> rfl

theorem clampCy_mode (e : Editor) : (clampCy e).mode = e.mode := by
  unfold clampCy; split_ifs <;> rfl

theorem cb_buffer (e : Editor) : (check_bounds e).buffer = e.buffer := by
  rw [check_bounds_pipeline, clampCy_buffer, clampW_buffer, clampL_buffer]

theorem cb_size (e : Editor) : (check_bounds e).size = e.size := by
  rw [check_bounds_pipeline, clampCy_size, clampW_size, clampL_size]

theorem cb_vtop (e : Editor) : (check_bounds e).vtop = e.vtop := by
  rw [check_bounds_pipeline, clampCy_vtop, clampW_vtop, clampL_vtop]

theorem cb_vleft (e : Editor) : (check_bounds e).vleft = e.vleft := by
  rw [check_bounds_pipeline, clampCy_vleft, clampW_vleft, clampL_vleft]

theorem cb_mode (e : Editor) : (check_bounds e).mode = e.mode := by
  rw [check_bounds_pipeline, clampCy_mode, clampW_mode, clampL_mode]

theorem cy_clamped_congr (a b : Editor) (h1 : a.cy = b.cy) (h2 : a.vtop = b.vtop)
    (h3 : a.buffer = b.buffer) : cy_clamped a = cy_clamped b := by
  unfold cy_clamped; rw [h1, h2, h3]

theorem cb_cy (e : Editor) : (check_bounds e).cy = cy_clamped e := by
  rw [check_bounds_pipeline, clampCy_cy]
  exact cy_clamped_congr _ _ (by rw [clampW_cy, clampL_cy])
    (by rw [clampW_vtop, clampL_vtop]) (by rw [clampW_buffer, clampL_buffer])

theorem vwidth_congr (a b : Editor) (h : a.size = b.size) : vwidth a = vwidth b := by
  unfold vwidth; rw [h]

theorem cb_cx (e : Editor) :
    (check_bounds e).cx = clamp_width (clamp_line e.cx (line_length e)) (vwidth e) := by
  rw [check_bounds_pipeline, clampCy_cx, clampW_cx, clampL_cx,
    vwidth_congr (clampL e) e (clampL_size e)]

theorem clamp_idem_same (cx l W : Nat) (hl : l < 65536) (hW : W < 65536) :
    clamp_width (clamp_line (clamp_width (clamp_line cx l) W) l) W =
      clamp_width (clamp_line cx l) W := by
  unfold clamp_line clamp_width sub16
  split_ifs <;> omega

theorem clamp_idem_zero (cx l1 W : Nat) (hl1 : l1 < 65536) (hW : W < 65536) :
    clamp_width (clamp_line (clamp_width (clamp_line cx 0) W) l1) W =
      clamp_width (clamp_line cx 0) W := by
  unfold clamp_line clamp_width sub16
  split_ifs <;> omega

theorem add16_comm (a b : Nat) : add16 a b = add16 b a := by
  unfold add16; rw [Nat.add_comm]

theorem row_length_congr (a b : Editor) (h2 : a.vtop = b.vtop)
    (h3 : a.buffer = b.buffer) (row : Nat) : row_length a row = row_length b row := by
  unfold row_length; rw [h2, h3]

theorem line_length_eq_row (e : Editor) : line_length e = row_length e e.cy := rfl

theorem line_length_zero_of_trigger (e : Editor)
    (h : add16 e.cy e.vtop ≥ e.buffer.length) : line_length e = 0 := by
  unfold line_length viewport_line
  rw [add16_comm e.vtop e.cy]
  rw [List.get?_eq_none.mpr h]

theorem cy_clamped_cb (e : Editor) : cy_clamped (check_bounds e) = cy_clamped e := by
  have h := cy_clamped_congr (check_bounds e)
    { e with cy := cy_clamped e }
    (by rw [cb_cy]) (by rw [cb_vtop]) (by rw [cb_buffer])
  rw [h]
  by_cases t : add16 e.cy e.vtop ≥ e.buffer.length
  · unfold cy_clamped
    simp only [t, if_pos, ite_self]
  · unfold cy_clamped
    simp only [if_neg t]

/-- C3: bounds-correction is idempotent — running `check_bounds` twice from
any u16 session state yields exactly the state of running it once, in every
field (cx, cy, vtop, vleft, mode, buffer and size). -/
theorem c3_check_bounds_idempotent (e : Editor) (h : WF e) :
    check_bounds (check_bounds e) = check_bounds e := by
  obtain ⟨hcx, hcy, hvtop, hvleft, hw, hh⟩ := h
  refine Editor.ext ?_ ?_ ?_ ?_ ?_ ?_ ?_
  · rw [cb_buffer, cb_buffer]
  · rw [cb_size, cb_size]
  · rw [cb_vtop, cb_vtop]
  · rw [cb_vleft, cb_vleft]
  · rw [cb_cx (check_bounds e), cb_cx e,
      vwidth_congr (check_bounds e) e (cb_size e)]
    have hline : line_length (check_bounds e) = row_length e (cy_clamped e) := by
      rw [line_length_eq_row, cb_cy]
      exact row_length_congr _ _ (cb_vtop e) (cb_buffer e) _
    rw [hline]
    by_cases t : add16 e.cy e.vtop ≥ e.buffer.length
    · rw [line_length_zero_of_trigger e t]
      exact clamp_idem_zero e.cx _ (vwidth e) (row_length_lt e _) hw
    · have hcy2 : cy_clamped e = e.cy := by unfold cy_clamped; rw [if_neg t]
      rw [hcy2, ← line_length_eq_row]
      exact clamp_idem_same e.cx _ _ (line_length_lt e) hw
  · rw [cb_cy, cb_cy, cy_clamped_cb]
  · rw [cb_mode, cb_mode]

/-- C3 (witness): a concrete double application. -/
theorem c3_check_bounds_idempotent_witness :
    check_bounds (check_bounds scenario_c1) = check_bounds scenario_c1 :=
  c3_check_bounds_idempotent scenario_c1 (by decide)

theorem clamp_width_lt (x W : Nat) (h1 : 1 ≤ W) (h2 : W < 65536) :
    clamp_width x W < W := by
  unfold clamp_width sub16; split_ifs <;> omega

/-- C1 (counterexample): `check_bounds` does not clamp `cy` into the
viewport.  With terminal height 3 (height ≥ 2, viewport height 1), a 4-line
buffer and prior `(cx, cy, vtop) = (0, 2, 0)`, `vtop + cy` addresses an
in-buffer line, so `check_bounds` leaves `cy = 2 ≥ viewport_height`. -/
theorem c1_counterexample :
    2 ≤ scenario_c1.size.2 ∧
    ¬ ((check_bounds scenario_c1).cx < vwidth scenario_c1 ∧
       (check_bounds scenario_c1).cy < vheight scenario_c1) := by decide

/-- C1 (amended): after `check_bounds`, `0 ≤ cx < viewport_width` holds for
every prior state (given a positive, in-range width), and
`0 ≤ cy < viewport_height` holds provided the prior state already had
`cy < viewport_height` and `vtop` strictly inside the buffer — as every
state produced from the initial state by the session loop (in particular by
repeated MoveDown past buffer end) does; `check_bounds` never clamps `cy`
against the viewport height itself, only against the end of the buffer. -/
theorem c1_check_bounds_bounds (e : Editor)
    (hw1 : 1 ≤ vwidth e) (hw2 : vwidth e < 65536)
    (hlen : e.vtop < e.buffer.length) (hlen2 : e.buffer.length < 65536)
    (hsum : e.vtop + e.cy < 65536) (hcy : e.cy < vheight e) :
    (check_bounds e).cx < vwidth e ∧ (check_bounds e).cy < vheight e := by
  constructor
  · rw [cb_cx]
    exact clamp_width_lt _ _ hw1 hw2
  · rw [cb_cy]
    unfold cy_clamped
    split_ifs with t
    · unfold add16 at t
      unfold sub16 w16
      omega
    · exact hcy

/-- C1 (witness): the bounds hold at a concrete state. -/
theorem c1_check_bounds_bounds_witness :
    (check_bounds scenario_c4).cx < vwidth scenario_c4 ∧
    (check_bounds scenario_c4).cy < vheight scenario_c4 :=
  c1_check_bounds_bounds scenario_c4 (by decide) (by decide) (by decide)
    (by decide) (by decide) (by decide)

/-- C2 (counterexample): on a session state with an empty buffer the `cy`
clamp of `check_bounds` underflows, and instead of saturating at 0 the
wrapped result is 65535. -/
theorem c2_counterexample :
    check_bounds_underflows scenario_c2 ∧
    (check_bounds scenario_c2).cy = 65535 := by decide

/-- C2 (amended): the decrementing actions MoveUp, MoveLeft, PageUp and
MoveToLineEnd always saturate at 0 (truncated subtraction, with MoveLeft
floored at `vleft` and MoveUp guarded), and no subtraction of
`check_bounds` underflows provided the viewport width is positive and
`vtop` lies strictly inside the buffer; on an empty buffer (or with `vtop`
at or past the buffer length) the `cy` clamp underflows and wraps rather
than saturating. -/
theorem c2_clamping_saturates (e : Editor) (hw : 1 ≤ vwidth e)
    (hlen : e.vtop < e.buffer.length) (hlen2 : e.buffer.length < 65536) :
    ¬ check_bounds_underflows e ∧
    (applyAction e Action.MoveUp).cy = e.cy - 1 ∧
    (applyAction e Action.MoveUp).vtop =
      (if e.cy = 0 then e.vtop - 1 else e.vtop) ∧
    (applyAction e Action.MoveLeft).cx = max e.vleft (e.cx - 1) ∧
    (applyAction e Action.PageUp).vtop = e.vtop - vheight e ∧
    (applyAction e Action.MoveToLineEnd).cx = line_length e - 1 := by
  refine ⟨?_, ?_, ?_, ?_, rfl, rfl⟩
  · rintro (h | ⟨h1, h2⟩)
    · unfold vwidth at *; omega
    · unfold w16 at h2; omega
  · simp only [applyAction]
    split_ifs <;> simp_all
  · simp only [applyAction]
    split_ifs <;> simp_all
  · simp only [applyAction]
    split_ifs <;> simp_all
    omega

/-- C2 (witness): the amended statement at a concrete state. -/
theorem c2_clamping_saturates_witness :
    ¬ check_bounds_underflows scenario_c4 ∧
    (applyAction scenario_c4 Action.MoveUp).cy = scenario_c4.cy - 1 ∧
    (applyAction scenario_c4 Action.MoveUp).vtop =
      (if scenario_c4.cy = 0 then scenario_c4.vtop - 1 else scenario_c4.vtop) ∧
    (applyAction scenario_c4 Action.MoveLeft).cx =
      max scenario_c4.vleft (scenario_c4.cx - 1) ∧
    (applyAction scenario_c4 Action.PageUp).vtop =
      scenario_c4.vtop - vheight scenario_c4 ∧
    (applyAction scenario_c4 Action.MoveToLineEnd).cx =
      line_length scenario_c4 - 1 :=
  c2_clamping_saturates scenario_c4 (by decide) (by decide) (by decide)

theorem vheight_congr (a b : Editor) (h : a.size = b.size) : vheight a = vheight b := by
  unfold vheight; rw [h]

/-- Helper: classification never produces the NewLine action (no table row
maps to it), so the session loop never executes the NewLine arm. -/
theorem classify_amended_ne_newline (m : Mode) (ev : Event) :
    classify_amended m ev ≠ some Action.NewLine := by
  cases ev with
  | Key ke =>
      obtain ⟨code, kind, mods⟩ := ke
      cases kind with
      | Press =>
          cases m with
          | Normal =>
              cases code <;>
                simp [classify_amended, normal_table_spec, first_match,
                  normal_rows]
              split_ifs <;> simp
          | Insert => cases code <;> simp [classify_amended]
      | Release => cases m <;> simp [classify_amended]
      | Repeat => cases m <;> simp [classify_amended]
  | Resize w h => cases m <;> simp [classify_amended]
  | FocusGained => cases m <;> simp [classify_amended]
  | FocusLost => cases m <;> simp [classify_amended]
  | Paste s => cases m <;> simp [classify_amended]
  | Mouse => cases m <;> simp [classify_amended]

theorem handle_event_ne_newline (x : Editor) (ev : Event) :
    handle_event x ev ≠ Except.ok (some Action.NewLine) := by
  intro h
  rw [handle_event_eq_amended] at h
  exact classify_amended_ne_newline _ _ (Except.ok.inj h)

/-- Helper: `check_bounds` preserves the loop invariant and additionally
leaves the addressed line strictly inside the buffer. -/
theorem inv_check_bounds (len : Nat) (sz : Nat × Nat) (hOK : SizeOK len sz)
    (e : Editor) (hInv : SessionInv len sz e) :
    SessionInv len sz (check_bounds e) ∧
      (check_bounds e).cy + (check_bounds e).vtop < len := by
  obtain ⟨hb, hs, hv, hcy⟩ := hInv
  obtain ⟨h1, h2, h3⟩ := hOK
  subst hb; subst hs
  refine ⟨⟨by rw [cb_buffer], cb_size e, ?_, ?_⟩, ?_⟩
  · rw [cb_vtop]; exact hv
  · rw [cb_cy]
    unfold cy_clamped add16 sub16 w16
    split_ifs with t <;> omega
  · rw [cb_cy, cb_vtop]
    unfold cy_clamped add16 sub16 w16
    split_ifs with t <;> omega

/-- Helper: every action the classifier can produce preserves the loop
invariant when applied to a bounds-checked state. -/
theorem inv_applyAction (len : Nat) (sz : Nat × Nat) (hOK : SizeOK len sz)
    (s : Editor) (hInv : SessionInv len sz s) (hP : s.cy + s.vtop < len)
    (a : Action) (ha : a ≠ Action.NewLine) :
    SessionInv len sz (applyAction s a) := by
  obtain ⟨hb, hs, hv, hcy⟩ := hInv
  obtain ⟨h1, h2, h3⟩ := hOK
  subst hb; subst hs
  have hH : vheight s = s.size.2 - 2 := by unfold vheight sub16; omega
  cases a with
  | Quit => exact ⟨rfl, rfl, hv, hcy⟩
  | MoveUp =>
      simp only [applyAction]
      split_ifs
      · exact ⟨rfl, rfl, (by omega : s.vtop - 1 < List.length s.buffer), hcy⟩
      · exact ⟨rfl, rfl, hv, hcy⟩
      · exact ⟨rfl, rfl, hv,
          (Nat.lt_of_le_of_lt (Nat.sub_le s.cy 1) hcy :
            s.cy - 1 < s.size.2 - 2)⟩
  | MoveDown =>
      simp only [applyAction]
      rw [hH]
      split_ifs with t
      · refine ⟨rfl, rfl, ?_, ?_⟩
        · show add16 s.vtop 1 < s.buffer.length
          unfold add16 at t ⊢
          omega
        · show sub16 (s.size.2 - 2) 1 < s.size.2 - 2
          unfold sub16
          omega
      · refine ⟨rfl, rfl, hv, ?_⟩
        show add16 s.cy 1 < s.size.2 - 2
        unfold add16 at t ⊢
        omega
  | MoveLeft =>
      simp only [applyAction]
      split_ifs <;> exact ⟨rfl, rfl, hv, hcy⟩
  | MoveRight => exact ⟨rfl, rfl, hv, hcy⟩
  | PageUp =>
      simp only [applyAction]
      refine ⟨rfl, rfl, ?_, hcy⟩
      show s.vtop - vheight s < List.length s.buffer
      omega
  | PageDown =>
      simp only [applyAction]
      split_ifs with t
      · exact ⟨rfl, rfl, t, hcy⟩
      · exact ⟨rfl, rfl,
          (by unfold sub16 w16; omega :
            sub16 (w16 (List.length s.buffer)) 1 < List.length s.buffer), hcy⟩
  | MoveToLineEnd => exact ⟨rfl, rfl, hv, hcy⟩
  | MoveToLineStart => exact ⟨rfl, rfl, hv, hcy⟩
  | EnterMode m => exact ⟨rfl, rfl, hv, hcy⟩
  | AddChar c =>
      exact ⟨(by unfold bufInsert; exact List.length_set _ _ _ :
          List.length (bufInsert s.buffer s.cx (buffer_line s) c) =
            List.length s.buffer), rfl, hv, hcy⟩
  | NewLine => exact absurd rfl ha

/-- Helper: the loop invariant holds at every reachable session state. -/
theorem reachable_inv (buf : Buffer) (sz : Nat × Nat)
    (hOK : SizeOK buf.length sz) (e : Editor) (hr : Reachable buf sz e) :
    SessionInv buf.length sz e := by
  induction hr with
  | init =>
      refine ⟨rfl, rfl, ?_, ?_⟩
      · show 0 < buf.length
        exact hOK.1
      · show 0 < sz.2 - 2
        have h2 := hOK.2.1
        omega
  | step e ev hre ih =>
      unfold loop_step processEvent
      have hP := inv_check_bounds _ _ hOK e ih
      cases hev : handle_event (check_bounds e) ev with
      | error err => exact hP.1
      | ok o =>
          cases o with
          | none => exact hP.1
          | some a =>
              refine inv_applyAction _ _ hOK _ hP.1 hP.2 a ?_
              intro hEq
              rw [hEq] at hev
              exact handle_event_ne_newline _ _ hev

/-- C10 (counterexample): on a session started on an empty buffer — a
reachable state — the `cy` clamp's subtraction in `check_bounds` and the
PageDown pinning branch's subtraction both underflow. -/
theorem c10_counterexample :
    Reachable [] (80, 10) scenario_c2 ∧
    cy_clamp_underflows scenario_c2 ∧
    pageDown_underflows (check_bounds scenario_c2) :=
  ⟨Reachable.init, by decide, by decide⟩

/-- C10 (amended): for every session state reachable by the loop from a
session started on a NON-empty buffer (of fewer than 2^16 lines, with
terminal height at least 4 and no u16 wrap in `length + height`), the
subtraction `buffer_length - vtop - 1` in `check_bounds` is never executed
in an underflowing way, and PageDown's pinning branch `buffer_length - 1`
never underflows; on an empty buffer both underflow at once. -/
theorem c10_no_underflow (buf : Buffer) (sz : Nat × Nat)
    (h1 : 1 ≤ buf.length) (h2 : 4 ≤ sz.2) (h3 : buf.length + sz.2 < 65536)
    (e : Editor) (hr : Reachable buf sz e) :
    ¬ cy_clamp_underflows e ∧ ¬ pageDown_underflows (check_bounds e) := by
  have hOK : SizeOK buf.length sz := ⟨h1, h2, h3⟩
  have hInv := reachable_inv buf sz hOK e hr
  have hInv2 := (inv_check_bounds _ _ hOK e hInv).1
  constructor
  · rintro ⟨t, hu⟩
    obtain ⟨hb, hs, hv, hcy⟩ := hInv
    unfold w16 at hu
    omega
  · rintro ⟨t, h0⟩
    obtain ⟨hb, hs, hv, hcy⟩ := hInv2
    unfold w16 at h0
    omega

/-- C10 (witness): no underflow at a freshly started non-empty session. -/
theorem c10_no_underflow_witness :
    ¬ cy_clamp_underflows (Editor.new ["ab"] (80, 10)) ∧
    ¬ pageDown_underflows (check_bounds (Editor.new ["ab"] (80, 10))) :=
  c10_no_underflow ["ab"] (80, 10) (by decide) (by decide) (by decide)
    (Editor.new ["ab"] (80, 10)) Reachable.init

end Craby
